import Mathlib

/-!
Verification of the `rdtools` availability module (`rdtools/availability.py`).

The module consists of four functions operating on pandas time-series data:
`is_online` (per-inverter online/offline classification), `downtime_loss`
(lost-power estimation), and the pair `profile_to_signal` / `signal_to_profile`
(conversion between a 12-month-by-24-hour typical-production matrix and a
timestamped series).

The embedding models pandas float arithmetic with the type `PF`: a rational
value, a signed infinity, or NaN, with IEEE-754-style arithmetic.  This is
needed because the source relies on float semantics in several places
(masked cells become NaN and are skipped by `mean`/`median`/`min`/`sum`
reductions; division by zero produces infinities that are later clipped;
comparisons with NaN are false).  Tables are total functions on `Fin`
index/column types; the shared time axis of a call is `Fin T` and the
inverter columns are `Fin N`.  Missing input values (`NaN` cells) are
modelled as `Option ℚ` with `none` = missing, matching the `fillna(0)`
calls at the top of each source function.
-/

/-- An IEEE-754-style scalar as manipulated by the pandas pipeline: a finite
rational value, a signed infinity, or NaN. -/
inductive PF where
  | val : ℚ → PF
  | pinf : PF
  | ninf : PF
  | nan : PF
deriving DecidableEq, Repr

namespace PF

/-- IEEE negation. -/
def neg : PF → PF
  | val a => val (-a)
  | pinf => ninf
  | ninf => pinf
  | nan => nan

/-- IEEE addition: NaN propagates, opposite infinities give NaN. -/
def add : PF → PF → PF
  | nan, _ => nan
  | _, nan => nan
  | pinf, ninf => nan
  | ninf, pinf => nan
  | pinf, _ => pinf
  | ninf, _ => ninf
  | _, pinf => pinf
  | _, ninf => ninf
  | val a, val b => val (a + b)

/-- IEEE subtraction. -/
def sub (x y : PF) : PF := add x (neg y)

/-- IEEE multiplication: NaN propagates, `0 * ±inf = NaN`. -/
def mul : PF → PF → PF
  | nan, _ => nan
  | _, nan => nan
  | val a, val b => val (a * b)
  | val a, pinf => if a = 0 then nan else if 0 < a then pinf else ninf
  | val a, ninf => if a = 0 then nan else if 0 < a then ninf else pinf
  | pinf, val b => if b = 0 then nan else if 0 < b then pinf else ninf
  | ninf, val b => if b = 0 then nan else if 0 < b then ninf else pinf
  | pinf, pinf => pinf
  | pinf, ninf => ninf
  | ninf, pinf => ninf
  | ninf, ninf => pinf

/-- IEEE division as produced by numpy on a zero denominator: `a/0` is a
signed infinity for `a ≠ 0` and NaN for `a = 0`; a finite value divided by
an infinity is `0`; `inf/inf` is NaN. -/
def div : PF → PF → PF
  | nan, _ => nan
  | _, nan => nan
  | val a, val b =>
      if b = 0 then (if a = 0 then nan else if 0 < a then pinf else ninf)
      else val (a / b)
  | val _, pinf => val 0
  | val _, ninf => val 0
  | pinf, val b => if 0 ≤ b then pinf else ninf
  | ninf, val b => if 0 ≤ b then ninf else pinf
  | pinf, pinf => nan
  | pinf, ninf => nan
  | ninf, pinf => nan
  | ninf, ninf => nan

/-- IEEE `≤` as a Bool: any comparison with NaN is false. -/
def leB : PF → PF → Bool
  | nan, _ => false
  | _, nan => false
  | ninf, _ => true
  | _, pinf => true
  | pinf, _ => false
  | val _, ninf => false
  | val a, val b => decide (a ≤ b)

/-- IEEE `<` as a Bool: any comparison with NaN is false. -/
def ltB : PF → PF → Bool
  | nan, _ => false
  | _, nan => false
  | _, ninf => false
  | ninf, _ => true
  | pinf, _ => false
  | _, pinf => true
  | val a, val b => decide (a < b)

/-- pandas `clip(lower=l)`: NaN passes through, `-inf` becomes `l`. -/
def clipLower (l : ℚ) : PF → PF
  | val a => val (max a l)
  | pinf => pinf
  | ninf => val l
  | nan => nan

/-- pandas `clip(upper=u)`: NaN passes through, `+inf` becomes `u`. -/
def clipUpper (u : ℚ) : PF → PF
  | val a => val (min a u)
  | pinf => val u
  | ninf => ninf
  | nan => nan

/-- pandas `fillna(d)` on a scalar. -/
def fillna (d : ℚ) : PF → PF
  | nan => val d
  | x => x

/-- Embed a possibly-missing rational as a float (missing = NaN). -/
def ofOption : Option ℚ → PF
  | some q => val q
  | none => nan

/-- pandas `sum` with the default `skipna=True`: NaN input cells are
dropped, the empty sum is `0`.  (Infinities are not dropped.) -/
def sumSkipNa (xs : List PF) : PF :=
  (xs.filter fun x => decide (x ≠ nan)).foldr add (val 0)

/-- pandas `mean` with the default `skipna=True`: mean of the non-NaN
entries, NaN if there are none. -/
def meanSkipNa (xs : List PF) : PF :=
  match xs.filter fun x => decide (x ≠ nan) with
  | [] => nan
  | y :: ys => div ((y :: ys).foldr add (val 0)) (val ((y :: ys).length : ℚ))

/-- Binary minimum of two non-NaN floats. -/
def minB (x y : PF) : PF := if leB x y then x else y

/-- pandas `min` with the default `skipna=True`: minimum of the non-NaN
entries, NaN if there are none. -/
def minSkipNa (xs : List PF) : PF :=
  match xs.filter fun x => decide (x ≠ nan) with
  | [] => nan
  | y :: ys => ys.foldl minB y

/-- Insert into a list sorted by `leB` (used to implement the median). -/
def insertLe (x : PF) : List PF → List PF
  | [] => [x]
  | y :: ys => if leB x y then x :: y :: ys else y :: insertLe x ys

/-- Insertion sort by `leB` (total on non-NaN floats). -/
def sortLe (xs : List PF) : List PF := xs.foldr insertLe []

/-- pandas `median` with the default `skipna=True`: NaN entries are dropped,
the remaining values are sorted, and the middle element (odd count) or the
average of the two middle elements (even count) is returned; NaN if no
non-NaN entries exist. -/
def median (xs : List PF) : PF :=
  match sortLe (xs.filter fun x => decide (x ≠ nan)) with
  | [] => nan
  | y :: ys =>
      let l := (y :: ys).length
      if l % 2 = 1 then (y :: ys).getD (l / 2) nan
      else div (add ((y :: ys).getD (l / 2 - 1) nan) ((y :: ys).getD (l / 2) nan)) (val 2)

end PF

/-- pandas `fillna(0)` on a possibly-missing cell. -/
def fillna0 (x : Option ℚ) : ℚ := x.getD 0

/-! ## `is_online`

Source: `rdtools/availability.py`, lines 10-99.  The classifier is written
below as one definition per source statement, in source order, and the
wrapper `is_online` composes them after the initial `fillna(0)` calls.
The `low_limit` argument is the resolved per-inverter threshold (a scalar
argument is the constant function); the default derivation
`0.01 * inverters.quantile(0.99)` is outside the fragment the claims are
about and is not modelled. -/

/-- Source expression `inverters[inverters > low_limit]`: the inverter table masked to cells
strictly above their column threshold; masked-out cells are NaN. -/
def masked_inverters {T N : ℕ} (inv : Fin T → Fin N → ℚ) (low : Fin N → ℚ)
    (t : Fin T) (j : Fin N) : PF :=
  if low j < inv t j then PF.val (inv t j) else PF.nan

/-- Source expression `inverters[inverters > low_limit].mean(axis=1)` (line 51). -/
def mean_inverter_power_raw {T N : ℕ} (inv : Fin T → Fin N → ℚ) (low : Fin N → ℚ)
    (t : Fin T) : PF :=
  PF.meanSkipNa ((List.finRange N).map fun j => masked_inverters inv low t j)

/-- Source expression `inverters[inverters > low_limit].divide(mean_inverter_power, axis=0).median()`
(lines 57-59). -/
def relative_sizing {T N : ℕ} (inv : Fin T → Fin N → ℚ) (low : Fin N → ℚ)
    (j : Fin N) : PF :=
  PF.median ((List.finRange T).map fun t =>
    PF.div (masked_inverters inv low t j) (mean_inverter_power_raw inv low t))

/-- Source expression `inverters[inverters > low_limit].divide(relative_sizing, axis=1).mean(axis=1)`
(lines 60-62). -/
def mean_inverter_power_sized {T N : ℕ} (inv : Fin T → Fin N → ℚ) (low : Fin N → ℚ)
    (t : Fin T) : PF :=
  PF.meanSkipNa ((List.finRange N).map fun j =>
    PF.div (masked_inverters inv low t j) (relative_sizing inv low j))

/-- Source expression `(inverters < low_limit).all(axis=1)` (line 65). -/
def all_inverters_appear_offline {T N : ℕ} (inv : Fin T → Fin N → ℚ) (low : Fin N → ℚ)
    (t : Fin T) : Bool :=
  decide (∀ j, inv t j < low j)

/-- Source expression `mean_inverter_power` after the line-66 substitution
`mean_inverter_power[all_inverters_appear_offline] = meter / n_inv`. -/
def mean_inverter_power {T N : ℕ} (inv : Fin T → Fin N → ℚ) (meter : Fin T → ℚ)
    (low : Fin N → ℚ) (t : Fin T) : PF :=
  if all_inverters_appear_offline inv low t then
    PF.div (PF.val (meter t)) (PF.val (N : ℚ))
  else mean_inverter_power_sized inv low t

/-- Source expression `meter < np.sum(low_limit)` (line 69). -/
def meter_appears_offline {T N : ℕ} (meter : Fin T → ℚ) (low : Fin N → ℚ)
    (t : Fin T) : Bool :=
  decide (meter t < ∑ j, low j)

/-- Source expression `all_inverters_appear_offline & meter_appears_offline` (line 70). -/
def site_offline {T N : ℕ} (inv : Fin T → Fin N → ℚ) (meter : Fin T → ℚ)
    (low : Fin N → ℚ) (t : Fin T) : Bool :=
  all_inverters_appear_offline inv low t && meter_appears_offline meter low t

/-- Source expression `meter_delta = 1 - meter / (n_inv * mean_inverter_power)` (line 74). -/
def meter_delta {T N : ℕ} (inv : Fin T → Fin N → ℚ) (meter : Fin T → ℚ)
    (low : Fin N → ℚ) (t : Fin T) : PF :=
  PF.sub (PF.val 1)
    (PF.div (PF.val (meter t)) (PF.mul (PF.val (N : ℚ)) (mean_inverter_power inv meter low t)))

/-- Source expression `inverter_fraction = relative_sizing / relative_sizing.sum()` (line 78). -/
def inverter_fraction {T N : ℕ} (inv : Fin T → Fin N → ℚ) (low : Fin N → ℚ)
    (j : Fin N) : PF :=
  PF.div (relative_sizing inv low j)
    (PF.sumSkipNa ((List.finRange N).map fun i => relative_sizing inv low i))

/-- Source expression `inverters.le(low_limit).replace(False, np.nan).multiply(inverter_fraction)
.min(axis=1).fillna(1)` (lines 79-83): a `True` cell is the number 1, a
replaced cell is NaN, and the row minimum skips NaN, falling back to 1. -/
def smallest_delta {T N : ℕ} (inv : Fin T → Fin N → ℚ) (low : Fin N → ℚ)
    (t : Fin T) : PF :=
  PF.fillna 1 (PF.minSkipNa ((List.finRange N).map fun j =>
    PF.mul (if inv t j ≤ low j then PF.val 1 else PF.nan) (inverter_fraction inv low j)))

/-- Source expression `meter_delta > (0.75 * smallest_delta)` (line 84). -/
def meter_appears_low {T N : ℕ} (inv : Fin T → Fin N → ℚ) (meter : Fin T → ℚ)
    (low : Fin N → ℚ) (t : Fin T) : Bool :=
  PF.ltB (PF.mul (PF.val (3 / 4)) (smallest_delta inv low t)) (meter_delta inv meter low t)

/-- Source expression `~(inverters > low_limit).all(axis=1)` (line 89). -/
def inverters_appear_offline {T N : ℕ} (inv : Fin T → Fin N → ℚ) (low : Fin N → ℚ)
    (t : Fin T) : Bool :=
  !(decide (∀ j, low j < inv t j))

/-- Source expression `inverters_appear_offline & meter_appears_low` (line 90). -/
def inverters_offline {T N : ℕ} (inv : Fin T → Fin N → ℚ) (meter : Fin T → ℚ)
    (low : Fin N → ℚ) (t : Fin T) : Bool :=
  inverters_appear_offline inv low t && meter_appears_low inv meter low t

/-- The mask assembly (lines 94-98): start all-`True`, overwrite the
`inverters_offline` rows with `inverters.gt(low_limit)`, then overwrite the
`site_offline` rows with `False` (the later assignment wins). -/
def online_mask_fn {T N : ℕ} (inv : Fin T → Fin N → ℚ) (meter : Fin T → ℚ)
    (low : Fin N → ℚ) (t : Fin T) (j : Fin N) : Bool :=
  if site_offline inv meter low t then false
  else if inverters_offline inv meter low t then decide (low j < inv t j)
  else true

/-- Source expression `is_online(inverters, meter, low_limit)` (lines 10-99): `fillna(0)` on
the inputs, then the classification pipeline above. -/
def is_online {T N : ℕ} (inverters : Fin T → Fin N → Option ℚ)
    (meter : Fin T → Option ℚ) (low : Fin N → ℚ) (t : Fin T) (j : Fin N) : Bool :=
  online_mask_fn (fun t j => fillna0 (inverters t j)) (fun t => fillna0 (meter t)) low t j

/-! ## `profile_to_signal` / `signal_to_profile`

Source: `rdtools/availability.py`, lines 195-218.  A timestamp is modelled
by the two pieces of calendar data the converters use: its hour of day and
its calendar month.  A profile (a `DataFrame` with hour index and month
columns) is modelled by its index list, its column list, and its cell
contents (`none` = NaN cell). -/

/-- The calendar data of one timestamp used by the converters. -/
structure Timestamp where
  hour : ℕ
  month : ℕ
deriving DecidableEq, Repr

/-- A typical-production profile: hour index, month columns, cell values
(`none` = NaN). -/
structure Profile where
  hours : List ℕ
  months : List ℕ
  cell : ℕ → ℕ → Option ℚ

/-- The `melt` step of `profile_to_signal` (lines 201-205): one
`(Hour, Month, value)` row per (month column, hour index) pair, months
outermost, as `melt` emits them. -/
def melted (p : Profile) : List (ℕ × ℕ × Option ℚ) :=
  p.months.flatMap fun m => p.hours.map fun h => (h, m, p.cell h m)

/-- The left-join lookup of the `merge` step (line 207) for one timestamp:
the first melted row whose `(Hour, Month)` key matches, `none` (NaN in the
joined frame) if no row matches. -/
def profile_lookup (p : Profile) (t : Timestamp) : Option ℚ :=
  ((melted p).find? fun r => decide (r.1 = t.hour) && decide (r.2.1 = t.month)).bind
    fun r => r.2.2

/-- Source expression `profile_to_signal(profile, times)` (lines 195-209): for each timestamp
of the axis, the value joined on its `(Hour, Month)` key. -/
def profile_to_signal (p : Profile) (times : List Timestamp) : List (Option ℚ) :=
  times.map fun t => profile_lookup p t

/-- Source expression `signal_to_profile(signal)` (lines 212-218): `pivot_table` with the
default mean aggregation, grouping the signal by `(hour, month)`; NaN
values are dropped before averaging and empty groups are missing cells. -/
def signal_to_profile (times : List Timestamp) (signal : List (Option ℚ))
    (h m : ℕ) : Option ℚ :=
  match (times.zip signal).filterMap
      (fun tv => if tv.1.hour = h ∧ tv.1.month = m then tv.2 else none) with
  | [] => none
  | q :: qs => some ((q :: qs).sum / ((q :: qs).length : ℚ))

/-! ## `downtime_loss`

Source: `rdtools/availability.py`, lines 102-192, one definition per source
statement in source order.   The time axis additionally carries the
calendar data (`times`) consumed by the `profile_to_signal` fallback. -/

/-- Source expression `inverters[online_mask].div(meter, axis=0).median()` (line 142):
per-column median over time of inverter power over meter power, with
masked-out cells NaN. -/
def inverter_shares {T N : ℕ} (inv : Fin T → Fin N → ℚ) (meter : Fin T → ℚ)
    (mask : Fin T → Fin N → Bool) (j : Fin N) : PF :=
  PF.median ((List.finRange T).map fun t =>
    PF.div (if mask t j then PF.val (inv t j) else PF.nan) (PF.val (meter t)))

/-- Source expression `inverter_shares.sum()` (line 143), skipping NaN. -/
def shares_sum {T N : ℕ} (inv : Fin T → Fin N → ℚ) (meter : Fin T → ℚ)
    (mask : Fin T → Fin N → Bool) : PF :=
  PF.sumSkipNa ((List.finRange N).map fun j => inverter_shares inv meter mask j)

/-- Source expression `inverter_shares /= inverter_shares.sum()` (line 143). -/
def inverter_share_norm {T N : ℕ} (inv : Fin T → Fin N → ℚ) (meter : Fin T → ℚ)
    (mask : Fin T → Fin N → Bool) (j : Fin N) : PF :=
  PF.div (inverter_shares inv meter mask j) (shares_sum inv meter mask)

/-- Source expression `online_mask.multiply(inverter_shares, axis=1).sum(axis=1)` (line 146):
a `True` cell is the number 1 and a `False` cell the number 0; the row sum
skips NaN. -/
def online_fraction_raw {T N : ℕ} (inv : Fin T → Fin N → ℚ) (meter : Fin T → ℚ)
    (mask : Fin T → Fin N → Bool) (t : Fin T) : PF :=
  PF.sumSkipNa ((List.finRange N).map fun j =>
    PF.mul (PF.val (if mask t j then 1 else 0)) (inverter_share_norm inv meter mask j))

/-- Source expression `inv_sum = inverters.sum(axis=1)` (line 151). -/
def inv_sum {T N : ℕ} (inv : Fin T → Fin N → ℚ) (t : Fin T) : ℚ :=
  ∑ j, inv t j

/-- Source expression `(meter / inv_sum).clip(lower=1)` with the line-156 overwrite
`communications_factor[online_fraction == 0] = 1` (a NaN fraction does not
compare equal to 0). -/
def communications_factor {T N : ℕ} (inv : Fin T → Fin N → ℚ) (meter : Fin T → ℚ)
    (mask : Fin T → Fin N → Bool) (t : Fin T) : PF :=
  if online_fraction_raw inv meter mask t = PF.val 0 then PF.val 1
  else PF.clipLower 1 (PF.div (PF.val (meter t)) (PF.val (inv_sum inv t)))

/-- Source expression `online_fraction *= communications_factor; online_fraction =
online_fraction.clip(upper=1)` (lines 157-158). -/
def online_fraction {T N : ℕ} (inv : Fin T → Fin N → ℚ) (meter : Fin T → ℚ)
    (mask : Fin T → Fin N → Bool) (t : Fin T) : PF :=
  PF.clipUpper 1 (PF.mul (online_fraction_raw inv meter mask t) (communications_factor inv meter mask t))

/-- Source expression `estimated_full_power = meter / online_fraction` (line 164). -/
def estimated_full_power {T N : ℕ} (inv : Fin T → Fin N → ℚ) (meter : Fin T → ℚ)
    (mask : Fin T → Fin N → Bool) (t : Fin T) : PF :=
  PF.div (PF.val (meter t)) (online_fraction inv meter mask t)

/-- Source expression `lost_power = (estimated_full_power - meter).clip(lower=0)`
(lines 166-167). -/
def lost_power_base {T N : ℕ} (inv : Fin T → Fin N → ℚ) (meter : Fin T → ℚ)
    (mask : Fin T → Fin N → Bool) (t : Fin T) : PF :=
  PF.clipLower 0 (PF.sub (estimated_full_power inv meter mask t) (PF.val (meter t)))

/-- Source expression `lost_power.loc[~is_daylight] = 0` (line 171). -/
def lost_power_daylight {T N : ℕ} (inv : Fin T → Fin N → ℚ) (meter : Fin T → ℚ)
    (mask : Fin T → Fin N → Bool) (daylight : Fin T → Bool) (t : Fin T) : PF :=
  if daylight t then lost_power_base inv meter mask t else PF.val 0

/-- Source expression `np.where(expected_power > 0, expected_power, typical_power)`
(lines 176-179), with `typical_power = profile_to_signal(production_profile,
times)`, which by definition is the per-timestamp `profile_lookup`. -/
def replacement_power {T : ℕ} (expected : Fin T → ℚ) (p : Profile)
    (times : Fin T → Timestamp) (t : Fin T) : PF :=
  if 0 < expected t then PF.val (expected t)
  else PF.ofOption (profile_lookup p (times t))

/-- Source expression `lost_power[(online_fraction == 0) & is_daylight] = replacement_power`
(line 183); a NaN fraction does not compare equal to 0. -/
def lost_power_replaced {T N : ℕ} (inv : Fin T → Fin N → ℚ) (meter : Fin T → ℚ)
    (mask : Fin T → Fin N → Bool) (expected : Fin T → ℚ) (p : Profile)
    (times : Fin T → Timestamp) (daylight : Fin T → Bool) (t : Fin T) : PF :=
  if online_fraction inv meter mask t = PF.val 0 ∧ daylight t = true then
    replacement_power expected p times t
  else lost_power_daylight inv meter mask daylight t

/-- Source expression `downtime_loss(inverters, meter, online_mask, expected_power,
production_profile, is_daylight, system_limit)` (lines 102-192): `fillna(0)`
on the numeric inputs, the loss pipeline above, and finally the
`system_limit` ceiling (lines 186-190), guarded by Python truthiness, so a
limit of `0` (like an absent one) skips the ceiling entirely.  The final
`clip(lower=0, upper=system_limit)` applies the lower bound first and the
upper bound second, as pandas does. -/
def downtime_loss {T N : ℕ} (inverters : Fin T → Fin N → Option ℚ)
    (meter : Fin T → Option ℚ) (mask : Fin T → Fin N → Bool)
    (expected : Fin T → Option ℚ) (p : Profile) (daylight : Fin T → Bool)
    (times : Fin T → Timestamp) (system_limit : Option ℚ) (t : Fin T) : PF :=
  let base := lost_power_replaced (fun t j => fillna0 (inverters t j))
    (fun t => fillna0 (meter t)) mask (fun t => fillna0 (expected t)) p times daylight t
  match system_limit with
  | none => base
  | some L =>
      if L = 0 then base
      else
        PF.clipUpper L (PF.clipLower 0
          (PF.sub (PF.clipUpper L (PF.add (PF.val (fillna0 (meter t))) base))
            (PF.val (fillna0 (meter t)))))

/-! ## Helper lemmas -/

/-- A value produced by `clip(lower=0)` is nonnegative. -/
lemma PF.clipLower_zero_val_nonneg {x : PF} {v : ℚ} (h : PF.clipLower 0 x = PF.val v) :
    0 ≤ v := by
  cases x with
  | val a =>
      simp only [PF.clipLower, PF.val.injEq] at h
      exact h ▸ le_max_right a 0
  | pinf => simp [PF.clipLower] at h
  | ninf =>
      simp only [PF.clipLower, PF.val.injEq] at h
      exact h ▸ le_refl 0
  | nan => simp [PF.clipLower] at h

/-- Bounds delivered by the `system_limit` ceiling step (lines 186-190): if
the result is a finite value `v`, then `v` is nonnegative and `m + v` stays
under the limit, for any pre-ceiling lost power `x`, provided the limit is
positive and the meter does not already exceed it. -/
lemma PF.cap_val_bounds {m L : ℚ} {x : PF} (hL : 0 < L) (hm : m ≤ L) {v : ℚ}
    (hv : PF.clipUpper L (PF.clipLower 0
      (PF.sub (PF.clipUpper L (PF.add (PF.val m) x)) (PF.val m))) = PF.val v) :
    0 ≤ v ∧ m + v ≤ L := by
  cases x with
  | val w =>
      simp only [PF.add, PF.clipUpper, PF.sub, PF.neg, PF.clipLower, PF.val.injEq] at hv
      subst hv
      refine ⟨le_min (le_max_right _ _) hL.le, ?_⟩
      have h1 : min (m + w) L + -m ≤ L - m := by
        have := min_le_right (m + w) L; linarith
      have h2 : max (min (m + w) L + -m) 0 ≤ L - m := max_le h1 (by linarith)
      have h3 : min (max (min (m + w) L + -m) 0) L ≤ L - m :=
        (min_le_left _ _).trans h2
      linarith
  | pinf =>
      simp only [PF.add, PF.clipUpper, PF.sub, PF.neg, PF.clipLower, PF.val.injEq] at hv
      subst hv
      refine ⟨le_min (le_max_right _ _) hL.le, ?_⟩
      have h2 : max (L + -m) 0 ≤ L - m := max_le (by linarith) (by linarith)
      have h3 : min (max (L + -m) 0) L ≤ L - m := (min_le_left _ _).trans h2
      linarith
  | ninf =>
      simp only [PF.add, PF.clipUpper, PF.sub, PF.neg, PF.clipLower, PF.val.injEq] at hv
      subst hv
      constructor
      · exact le_min le_rfl hL.le
      · have : min 0 L ≤ 0 := min_le_left 0 L
        linarith
  | nan =>
      simp [PF.add, PF.clipUpper, PF.sub, PF.neg, PF.clipLower] at hv

/-- If the value reaching the daylight/replacement steps is finite, it is
nonnegative, provided any replacement value used at a total-outage daylight
timestamp is nonnegative. -/
lemma lost_power_replaced_val_nonneg {T N : ℕ} {inv : Fin T → Fin N → ℚ}
    {meter : Fin T → ℚ} {mask : Fin T → Fin N → Bool} {expected : Fin T → ℚ}
    {p : Profile} {times : Fin T → Timestamp} {daylight : Fin T → Bool} {t : Fin T}
    (hrep : ∀ r : ℚ, online_fraction inv meter mask t = PF.val 0 → daylight t = true →
      replacement_power expected p times t = PF.val r → 0 ≤ r)
    {v : ℚ} (hv : lost_power_replaced inv meter mask expected p times daylight t = PF.val v) :
    0 ≤ v := by
  unfold lost_power_replaced at hv
  split_ifs at hv with hc
  · exact hrep v hc.1 hc.2 hv
  · unfold lost_power_daylight at hv
    split_ifs at hv with hd
    · exact PF.clipLower_zero_val_nonneg hv
    · simp only [PF.val.injEq] at hv
      exact hv ▸ le_refl 0

/-! ## Claims about `downtime_loss` guards -/

/-- Claim C10: calling `downtime_loss` with `system_limit = 0` skips the
ceiling step entirely (the Python guard `if system_limit:` tests
truthiness, and `0` is falsy), so the result is identical to a call with
no `system_limit`, rather than being capped so that
`meter + lost_power ≤ 0`. -/
theorem downtime_loss_zero_limit_eq_none {T N : ℕ}
    (inverters : Fin T → Fin N → Option ℚ) (meter : Fin T → Option ℚ)
    (mask : Fin T → Fin N → Bool) (expected : Fin T → Option ℚ) (p : Profile)
    (daylight : Fin T → Bool) (times : Fin T → Timestamp) (t : Fin T) :
    downtime_loss inverters meter mask expected p daylight times (some 0) t =
      downtime_loss inverters meter mask expected p daylight times none t := by
  simp [downtime_loss]

/-- Claim C9 (counterexample): the claim "lost power is exactly 0 wherever
`is_daylight` is false, regardless of whether a `system_limit` is supplied"
fails for a negative `system_limit`: at a non-daylight timestamp with
meter 0 and limit `-1`, the final `clip(lower=0, upper=system_limit)`
(upper bound applied last) forces the output to `-1`, not `0`. -/
theorem downtime_loss_night_nonzero_with_negative_limit :
    (![false] : Fin 1 → Bool) 0 = false ∧
    downtime_loss (T:=1) (N:=1) ![![some (10:ℚ)]] ![some (0:ℚ)] ![![true]]
        ![some (0:ℚ)] ⟨[12], [6], fun _ _ => some 0⟩ ![false] ![⟨12, 6⟩] (some (-1)) 0 =
      PF.val (-1) ∧
    PF.val (-1) ≠ PF.val (0 : ℚ) := by
  refine ⟨rfl, by with_unfolding_all decide, by with_unfolding_all decide⟩

/-- Claim C9 (amended): for every timestamp at which `is_daylight` is
false, the lost power returned by `downtime_loss` is exactly 0, regardless
of the preceding steps, whenever the `system_limit` is absent or
nonnegative (a negative limit instead forces the output to the limit). -/
theorem downtime_loss_night_zero {T N : ℕ}
    (inverters : Fin T → Fin N → Option ℚ) (meter : Fin T → Option ℚ)
    (mask : Fin T → Fin N → Bool) (expected : Fin T → Option ℚ) (p : Profile)
    (daylight : Fin T → Bool) (times : Fin T → Timestamp) (sl : Option ℚ) (t : Fin T)
    (hd : daylight t = false)
    (hsl : sl = none ∨ ∃ L, sl = some L ∧ 0 ≤ L) :
    downtime_loss inverters meter mask expected p daylight times sl t = PF.val 0 := by
  have hbase : lost_power_replaced (fun t j => fillna0 (inverters t j))
      (fun t => fillna0 (meter t)) mask (fun t => fillna0 (expected t)) p times daylight t =
      PF.val 0 := by
    unfold lost_power_replaced
    rw [if_neg (by simp [hd])]
    unfold lost_power_daylight
    rw [if_neg (by simp [hd])]
  rcases hsl with h | ⟨L, h, hL⟩
  · subst h
    simpa [downtime_loss] using hbase
  · subst h
    simp only [downtime_loss]
    rw [hbase]
    by_cases h0 : L = 0
    · simp [h0]
    · rw [if_neg h0]
      set m := fillna0 (meter t) with hm
      simp only [PF.add, PF.clipUpper, PF.sub, PF.neg, PF.clipLower, PF.val.injEq]
      have h1 : min (m + 0) L + -m ≤ 0 := by
        have := min_le_left (m + 0) L; linarith
      rw [max_eq_right h1]
      exact min_eq_left hL

/-- Witness for C9 (amended): at a concrete non-daylight timestamp with a
nonnegative limit, the output is 0. -/
theorem downtime_loss_night_zero_witness :
    (![false] : Fin 1 → Bool) 0 = false ∧
    downtime_loss (T:=1) (N:=1) ![![some (10:ℚ)]] ![some (0:ℚ)] ![![true]]
        ![some (0:ℚ)] ⟨[12], [6], fun _ _ => some 0⟩ ![false] ![⟨12, 6⟩] (some 1) 0 =
      PF.val 0 :=
  ⟨rfl, downtime_loss_night_zero ![![some (10:ℚ)]] ![some (0:ℚ)] ![![true]]
    ![some (0:ℚ)] ⟨[12], [6], fun _ _ => some 0⟩ ![false] ![⟨12, 6⟩] (some 1) 0 rfl
    (Or.inr ⟨1, rfl, by norm_num⟩)⟩

/-! ## Claims about `is_online` -/

/-- Claim C4: at a timestamp where every inverter reports power strictly
above its resolved threshold, the mask row returned by `is_online` is
all-`True`. -/
theorem is_online_all_above_threshold_true {T N : ℕ}
    (inverters : Fin T → Fin N → Option ℚ) (meter : Fin T → Option ℚ)
    (low : Fin N → ℚ) (t : Fin T) (j : Fin N)
    (h : ∀ i, low i < fillna0 (inverters t i)) :
    is_online inverters meter low t j = true := by
  unfold is_online online_mask_fn site_offline inverters_offline
  have hall : all_inverters_appear_offline (fun t j => fillna0 (inverters t j)) low t
      = false := by
    simp only [all_inverters_appear_offline, decide_eq_false_iff_not, not_forall, not_lt]
    exact ⟨j, (h j).le⟩
  have happ : inverters_appear_offline (fun t j => fillna0 (inverters t j)) low t
      = false := by
    simp only [inverters_appear_offline, Bool.not_eq_false', decide_eq_true_eq]
    exact h
  rw [hall, happ]
  simp

/-- Witness for C4 at a concrete input. -/
theorem is_online_all_above_threshold_true_witness :
    ((![(1:ℚ)] : Fin 1 → ℚ) 0 < fillna0 ((![![some (5:ℚ)]] : Fin 1 → Fin 1 → Option ℚ) 0 0)) ∧
    is_online (T:=1) (N:=1) ![![some (5:ℚ)]] ![some (0:ℚ)] ![(1:ℚ)] 0 0 = true :=
  ⟨by norm_num [fillna0],
   is_online_all_above_threshold_true ![![some (5:ℚ)]] ![some (0:ℚ)] ![(1:ℚ)] 0 0
     (by with_unfolding_all decide)⟩

/-- Claim C5: at a timestamp where every inverter reads strictly below its
threshold, the mean-inverter-power estimate used by the rest of the
algorithm (after the line-66 substitution) equals the meter reading divided
by the number of inverters. -/
theorem mean_inverter_power_all_offline_eq {T N : ℕ}
    (inv : Fin T → Fin N → ℚ) (meter : Fin T → ℚ) (low : Fin N → ℚ) (t : Fin T)
    (hN : 0 < N) (h : ∀ j, inv t j < low j) :
    mean_inverter_power inv meter low t = PF.val (meter t / (N : ℚ)) := by
  unfold mean_inverter_power
  rw [if_pos (by simp only [all_inverters_appear_offline, decide_eq_true_eq]; exact h)]
  simp only [PF.div]
  rw [if_neg (Nat.cast_ne_zero.mpr hN.ne')]

/-- Witness for C5 at a concrete input. -/
theorem mean_inverter_power_all_offline_eq_witness :
    ((0 : ℕ) < 1 ∧ (![![(0:ℚ)]] : Fin 1 → Fin 1 → ℚ) 0 0 < (![(1:ℚ)] : Fin 1 → ℚ) 0) ∧
    mean_inverter_power (T:=1) (N:=1) ![![(0:ℚ)]] ![(7:ℚ)] ![(1:ℚ)] 0 =
      PF.val ((![(7:ℚ)] : Fin 1 → ℚ) 0 / ((1:ℕ) : ℚ)) :=
  ⟨⟨one_pos, by norm_num⟩,
   mean_inverter_power_all_offline_eq ![![(0:ℚ)]] ![(7:ℚ)] ![(1:ℚ)] 0 one_pos
     (by with_unfolding_all decide)⟩

/-- Claim C2 (counterexample): "a mask row is all-`False` exactly when all
inverters are below threshold and the meter is below the sum of
thresholds" fails in the all-`False` → condition direction.  At `t = 1`
both inverters read `-2` (below their `-1` thresholds) while the meter
reads `5`, which is not below the threshold sum `-2`; yet the
corroborated-offline branch (line 97) writes `inverters.gt(low_limit)`,
which is all-`False` here. -/
theorem online_mask_all_false_without_site_offline :
    is_online (T:=2) (N:=2) ![![some (-1/2 : ℚ), some 2], ![some (-2), some (-2)]]
        ![some (2:ℚ), some 5] ![(-1 : ℚ), -1] 1 0 = false ∧
    is_online (T:=2) (N:=2) ![![some (-1/2 : ℚ), some 2], ![some (-2), some (-2)]]
        ![some (2:ℚ), some 5] ![(-1 : ℚ), -1] 1 1 = false ∧
    ¬ (fillna0 ((![some (2:ℚ), some 5] : Fin 2 → Option ℚ) 1) <
        ∑ j, (![(-1 : ℚ), -1] : Fin 2 → ℚ) j) := by
  refine ⟨by with_unfolding_all decide, by with_unfolding_all decide, ?_⟩
  with_unfolding_all decide

/-- Claim C2 (amended): if at a timestamp every inverter's (zero-filled)
reading is strictly below its threshold and the meter's reading is below
the sum of all thresholds, the mask row returned by `is_online` is
all-`False` (in particular this covers meter and inverters all reading
zero with positive thresholds).  The converse direction of the original
claim is false: an all-`False` row can also arise from the
corroborated-offline branch when the site-offline condition fails. -/
theorem is_online_site_offline_all_false {T N : ℕ}
    (inverters : Fin T → Fin N → Option ℚ) (meter : Fin T → Option ℚ)
    (low : Fin N → ℚ) (t : Fin T) (j : Fin N)
    (h1 : ∀ i, fillna0 (inverters t i) < low i)
    (h2 : fillna0 (meter t) < ∑ i, low i) :
    is_online inverters meter low t j = false := by
  unfold is_online online_mask_fn
  rw [if_pos]
  unfold site_offline
  rw [Bool.and_eq_true]
  constructor
  · simp only [all_inverters_appear_offline, decide_eq_true_eq]
    exact h1
  · simp only [meter_appears_offline, decide_eq_true_eq]
    exact h2

/-- Witness for C2 (amended): zero meter and inverter readings with
positive thresholds give an all-`False` row. -/
theorem is_online_site_offline_all_false_witness :
    (fillna0 ((![![some (0:ℚ)]] : Fin 1 → Fin 1 → Option ℚ) 0 0) < (![(1:ℚ)] : Fin 1 → ℚ) 0 ∧
      fillna0 ((![some (0:ℚ)] : Fin 1 → Option ℚ) 0) < ∑ i, (![(1:ℚ)] : Fin 1 → ℚ) i) ∧
    is_online (T:=1) (N:=1) ![![some (0:ℚ)]] ![some (0:ℚ)] ![(1:ℚ)] 0 0 = false :=
  ⟨⟨by norm_num [fillna0], by with_unfolding_all decide⟩,
   is_online_site_offline_all_false ![![some (0:ℚ)]] ![some (0:ℚ)] ![(1:ℚ)] 0 0
     (by with_unfolding_all decide) (by with_unfolding_all decide)⟩

/-- Claim C6: whenever the uncorrected online fraction is a finite value
`q` and the raw inverter sum is nonzero, the corrected online fraction of
`downtime_loss` equals `q` multiplied by `max(1, meter / inv_sum)` — except
that when `q = 0` the correction factor is 1 (the line-156 skip) — clipped
to at most 1. -/
theorem online_fraction_correction_eq {T N : ℕ}
    (inv : Fin T → Fin N → ℚ) (meter : Fin T → ℚ) (mask : Fin T → Fin N → Bool)
    (t : Fin T) (q : ℚ)
    (hraw : online_fraction_raw inv meter mask t = PF.val q)
    (hs : inv_sum inv t ≠ 0) :
    online_fraction inv meter mask t =
      PF.val (min (q * (if q = 0 then 1 else max (meter t / inv_sum inv t) 1)) 1) := by
  unfold online_fraction communications_factor
  rw [hraw]
  by_cases hq : q = 0
  · subst hq
    rw [if_pos rfl]
    simp [PF.mul, PF.clipUpper]
  · rw [if_neg (by simp [hq] : ¬ (PF.val q = PF.val 0))]
    simp only [PF.div]
    rw [if_neg hs]
    simp [PF.clipLower, PF.mul, PF.clipUpper, hq]

/-- Witness for C6 at a concrete input (one inverter, meter matching, so
the raw fraction is 1 and the factor is `max(1, 1) = 1`). -/
theorem online_fraction_correction_eq_witness :
    (online_fraction_raw (T:=1) (N:=1) ![![(10:ℚ)]] ![(10:ℚ)] ![![true]] 0 = PF.val 1 ∧
      inv_sum (T:=1) (N:=1) ![![(10:ℚ)]] 0 ≠ 0) ∧
    online_fraction (T:=1) (N:=1) ![![(10:ℚ)]] ![(10:ℚ)] ![![true]] 0 =
      PF.val (min ((1:ℚ) * (if (1:ℚ) = 0 then 1 else
        max ((![(10:ℚ)] : Fin 1 → ℚ) 0 / inv_sum (T:=1) (N:=1) ![![(10:ℚ)]] 0) 1)) 1) :=
  ⟨⟨by with_unfolding_all decide, by with_unfolding_all decide⟩,
   online_fraction_correction_eq ![![(10:ℚ)]] ![(10:ℚ)] ![![true]] 0 1
     (by with_unfolding_all decide) (by with_unfolding_all decide)⟩

/-- Minimum of a rational list, with a default for the empty list (the
specification-side reading of the smallest-delta reduction). -/
def minD (d : ℚ) : List ℚ → ℚ
  | [] => d
  | q :: qs => qs.foldl min q

lemma PF.minB_val (q a : ℚ) : PF.minB (PF.val q) (PF.val a) = PF.val (min q a) := by
  simp only [PF.minB, PF.leB, min_def, decide_eq_true_eq]
  split_ifs <;> rfl

lemma PF.foldl_minB_val (q : ℚ) (qs : List ℚ) :
    (qs.map PF.val).foldl PF.minB (PF.val q) = PF.val (qs.foldl min q) := by
  induction qs generalizing q with
  | nil => rfl
  | cons a l ih =>
      simp only [List.map_cons, List.foldl_cons, PF.minB_val]
      exact ih (min q a)

lemma filter_ofOption_map {α : Type} (L : List α) (g : α → Option ℚ) :
    ((L.map fun a => PF.ofOption (g a)).filter fun x => decide (x ≠ PF.nan)) =
      (L.filterMap g).map PF.val := by
  induction L with
  | nil => rfl
  | cons a l ih =>
      rw [List.map_cons, List.filter_cons, List.filterMap_cons, ih]
      cases hg : g a with
      | none => simp [PF.ofOption]
      | some q => simp [PF.ofOption]

lemma PF.fillna_minSkipNa_ofOption {α : Type} (L : List α) (g : α → Option ℚ) :
    PF.fillna 1 (PF.minSkipNa (L.map fun a => PF.ofOption (g a))) =
      PF.val (minD 1 (L.filterMap g)) := by
  unfold PF.minSkipNa
  rw [filter_ofOption_map]
  cases h : L.filterMap g with
  | nil => simp [PF.fillna, minD]
  | cons q qs => simp [PF.foldl_minB_val, PF.fillna, minD]

/-- The `smallest_delta` chain (lines 79-83) computed into its
specification-side form: the minimum of the relative-sizing fractions of
the inverters at or below threshold, with default 1 if there are none,
provided every inverter fraction is finite. -/
lemma smallest_delta_eq {T N : ℕ} (inv : Fin T → Fin N → ℚ) (low : Fin N → ℚ)
    (t : Fin T) (f : Fin N → ℚ)
    (hf : ∀ j, inverter_fraction inv low j = PF.val (f j)) :
    smallest_delta inv low t =
      PF.val (minD 1 ((List.finRange N).filterMap fun j =>
        if inv t j ≤ low j then some (f j) else none)) := by
  unfold smallest_delta
  have hmap : ((List.finRange N).map fun j =>
      PF.mul (if inv t j ≤ low j then PF.val 1 else PF.nan) (inverter_fraction inv low j)) =
      (List.finRange N).map fun j =>
        PF.ofOption (if inv t j ≤ low j then some (f j) else none) := by
    apply List.map_congr_left
    intro j _
    rw [hf j]
    split_ifs with h
    · simp [PF.mul, PF.ofOption]
    · simp [PF.mul, PF.ofOption]
  rw [hmap, PF.fillna_minSkipNa_ofOption]

/-- Claim C3: the meter is judged to corroborate offline inverters exactly
when `meter_delta > 0.75 * smallest_delta`, where
`meter_delta = 1 - meter / (n_inv * mean_inverter_power)` and
`smallest_delta` is the minimum relative-sizing fraction over the
inverters that appear offline (at or below threshold) at that timestamp,
or 1 when none appears offline.  Stated under the hypothesis that every
inverter's sizing fraction is a finite value `f j`. -/
theorem is_online_meter_appears_low_eq {T N : ℕ}
    (inv : Fin T → Fin N → ℚ) (meter : Fin T → ℚ) (low : Fin N → ℚ) (t : Fin T)
    (f : Fin N → ℚ)
    (hf : ∀ j, inverter_fraction inv low j = PF.val (f j)) :
    meter_appears_low inv meter low t =
      PF.ltB
        (PF.mul (PF.val (3 / 4)) (PF.val (minD 1 ((List.finRange N).filterMap fun j =>
          if inv t j ≤ low j then some (f j) else none))))
        (PF.sub (PF.val 1) (PF.div (PF.val (meter t))
          (PF.mul (PF.val (N : ℚ)) (mean_inverter_power inv meter low t)))) := by
  unfold meter_appears_low meter_delta
  rw [smallest_delta_eq inv low t f hf]

/-- Witness for C3 at a concrete input (one inverter above threshold, so
its sizing fraction is the finite value 1). -/
theorem is_online_meter_appears_low_eq_witness :
    (inverter_fraction (T:=1) (N:=1) ![![(5:ℚ)]] ![(1:ℚ)] 0 = PF.val 1) ∧
    meter_appears_low (T:=1) (N:=1) ![![(5:ℚ)]] ![(3:ℚ)] ![(1:ℚ)] 0 =
      PF.ltB
        (PF.mul (PF.val (3 / 4)) (PF.val (minD 1 ((List.finRange 1).filterMap fun j =>
          if (![![(5:ℚ)]] : Fin 1 → Fin 1 → ℚ) 0 j ≤ (![(1:ℚ)] : Fin 1 → ℚ) j
          then some ((fun _ => (1:ℚ)) j) else none))))
        (PF.sub (PF.val 1) (PF.div (PF.val ((![(3:ℚ)] : Fin 1 → ℚ) 0))
          (PF.mul (PF.val ((1:ℕ) : ℚ))
            (mean_inverter_power (T:=1) (N:=1) ![![(5:ℚ)]] ![(3:ℚ)] ![(1:ℚ)] 0)))) :=
  ⟨by with_unfolding_all decide,
   is_online_meter_appears_low_eq ![![(5:ℚ)]] ![(3:ℚ)] ![(1:ℚ)] 0 (fun _ => 1)
     (by with_unfolding_all decide)⟩

/-- Claim C1 (counterexample): the unconditional invariant "lost power is
always ≥ 0, and with a `system_limit` also `meter + lost_power ≤
system_limit`" fails on two concrete inputs.  Without a limit, a
total-outage daylight timestamp whose replacement comes from a negative
profile cell yields lost power `-1 < 0`.  With limit `5` and a meter
reading of `10`, the final `clip(lower=0)` forces lost power to `0`, so
`meter + lost_power = 10 > 5`. -/
theorem downtime_loss_invariant_fails :
    (downtime_loss (T:=1) (N:=1) ![![some (0:ℚ)]] ![some (0:ℚ)] ![![false]]
        ![some (0:ℚ)] ⟨[12], [6], fun _ _ => some (-1)⟩ ![true] ![⟨12, 6⟩] none 0 =
      PF.val (-1) ∧ ¬ (0 ≤ (-1 : ℚ))) ∧
    (downtime_loss (T:=1) (N:=1) ![![some (10:ℚ)]] ![some (10:ℚ)] ![![true]]
        ![some (0:ℚ)] ⟨[12], [6], fun _ _ => some 0⟩ ![true] ![⟨12, 6⟩] (some 5) 0 =
      PF.val 0 ∧ ¬ (fillna0 (some (10:ℚ)) + 0 ≤ 5)) := by
  refine ⟨⟨by with_unfolding_all decide, by norm_num⟩,
    ⟨by with_unfolding_all decide, ?_⟩⟩
  with_unfolding_all decide

/-- Claim C1 (amended): whenever the loss output at `t` is a finite value
`v`: without a `system_limit`, `v ≥ 0` provided any replacement value used
at a total-outage daylight timestamp is nonnegative; and with a positive
`system_limit L` and a meter reading not already above `L`, both `v ≥ 0`
and `meter + v ≤ L` hold.  The original unconditional claim fails when the
replacement (expected power / profile) value is negative or when the meter
alone exceeds the limit. -/
theorem downtime_loss_nonneg_and_capped {T N : ℕ}
    (inverters : Fin T → Fin N → Option ℚ) (meter : Fin T → Option ℚ)
    (mask : Fin T → Fin N → Bool) (expected : Fin T → Option ℚ) (p : Profile)
    (daylight : Fin T → Bool) (times : Fin T → Timestamp) (t : Fin T) (L : ℚ)
    (hrep : ∀ r : ℚ,
      online_fraction (fun t j => fillna0 (inverters t j)) (fun t => fillna0 (meter t)) mask t
        = PF.val 0 →
      daylight t = true →
      replacement_power (fun t => fillna0 (expected t)) p times t = PF.val r → 0 ≤ r)
    (hL : 0 < L) (hm : fillna0 (meter t) ≤ L) :
    (∀ v : ℚ,
      downtime_loss inverters meter mask expected p daylight times none t = PF.val v →
      0 ≤ v) ∧
    (∀ v : ℚ,
      downtime_loss inverters meter mask expected p daylight times (some L) t = PF.val v →
      0 ≤ v ∧ fillna0 (meter t) + v ≤ L) := by
  constructor
  · intro v hv
    simp only [downtime_loss] at hv
    exact lost_power_replaced_val_nonneg hrep hv
  · intro v hv
    simp only [downtime_loss] at hv
    rw [if_neg hL.ne'] at hv
    exact PF.cap_val_bounds hL hm hv

/-- Witness for C1 (amended) at a concrete input: one inverter at 10,
meter 10, limit 20; the output is 0, which is nonnegative and keeps
`meter + lost` below the limit. -/
theorem downtime_loss_nonneg_and_capped_witness :
    ((0:ℚ) < 20 ∧ fillna0 (some (10:ℚ)) ≤ 20) ∧
    (0 ≤ (0:ℚ) ∧ fillna0 (some (10:ℚ)) + 0 ≤ 20) :=
  ⟨⟨by norm_num, by with_unfolding_all decide⟩,
   (downtime_loss_nonneg_and_capped ![![some (10:ℚ)]] ![some (10:ℚ)] ![![true]]
      ![some (0:ℚ)] ⟨[12], [6], fun _ _ => some 0⟩ ![true] ![⟨12, 6⟩] 0 20
      (fun r h => absurd h (by with_unfolding_all decide))
      (by norm_num) (by with_unfolding_all decide)).2 0
     (by with_unfolding_all decide)⟩

/-! ## Claims about the profile/signal converters -/

lemma find_row_eq (hs : List ℕ) (m : ℕ) (c : ℕ → ℕ → Option ℚ) (t : Timestamp) :
    ((hs.map fun h => (h, m, c h m)).find?
        fun r => decide (r.1 = t.hour) && decide (r.2.1 = t.month)) =
      if t.hour ∈ hs ∧ m = t.month then some (t.hour, m, c t.hour m) else none := by
  induction hs with
  | nil => simp
  | cons a l ih =>
      rw [List.map_cons, List.find?_cons]
      by_cases ha : a = t.hour <;> by_cases hm2 : m = t.month
      · subst ha; subst hm2; simp
      · subst ha; simp [hm2, ih]
      · subst hm2
        simp [ha, ih, List.mem_cons, (Ne.symm ha : t.hour ≠ a)]
      · simp [ha, hm2, ih, List.mem_cons, (Ne.symm ha : t.hour ≠ a)]

lemma find_melted_eq (hs ms : List ℕ) (c : ℕ → ℕ → Option ℚ) (t : Timestamp) :
    ((ms.flatMap fun m => hs.map fun h => (h, m, c h m)).find?
        fun r => decide (r.1 = t.hour) && decide (r.2.1 = t.month)) =
      if t.hour ∈ hs ∧ t.month ∈ ms then some (t.hour, t.month, c t.hour t.month)
      else none := by
  induction ms with
  | nil => simp
  | cons m ms ih =>
      rw [List.flatMap_cons, List.find?_append, find_row_eq, ih]
      by_cases hm : m = t.month
      · subst hm
        by_cases hh : t.hour ∈ hs
        · simp [hh]
        · simp [hh]
      · by_cases hms : t.month ∈ ms <;> by_cases hh : t.hour ∈ hs <;>
          simp [hm, hms, hh, (Ne.symm hm : t.month ≠ m)]

/-- The `merge` lookup of `profile_to_signal` resolved: a timestamp key
present in the profile's index/columns joins its cell value, any other key
joins nothing. -/
lemma profile_lookup_eq (p : Profile) (t : Timestamp) :
    profile_lookup p t =
      if t.hour ∈ p.hours ∧ t.month ∈ p.months then p.cell t.hour t.month else none := by
  unfold profile_lookup melted
  rw [find_melted_eq]
  split_ifs <;> simp

/-- Claim C8: for every index of the time axis given to
`profile_to_signal`, the output at that index is the profile cell at
(hour, month) of that timestamp when the combination exists in the
profile, and missing when it is absent.  Timestamps sharing an
(hour, month) key therefore receive the same value. -/
theorem profile_to_signal_lookup (p : Profile) (times : List Timestamp) (i : ℕ)
    (t : Timestamp) (ht : times.get? i = some t) :
    (profile_to_signal p times).get? i =
      some (if t.hour ∈ p.hours ∧ t.month ∈ p.months then p.cell t.hour t.month
        else none) := by
  unfold profile_to_signal
  rw [List.get?_map, ht, Option.map_some']
  rw [profile_lookup_eq]

/-- Witness for C8 at a concrete profile and axis. -/
theorem profile_to_signal_lookup_witness :
    ([Timestamp.mk 7 3].get? 0 = some (Timestamp.mk 7 3)) ∧
    (profile_to_signal ⟨[7], [3], fun _ _ => some 42⟩ [Timestamp.mk 7 3]).get? 0 =
      some (if (7:ℕ) ∈ [7] ∧ (3:ℕ) ∈ [3] then some (42:ℚ) else none) :=
  ⟨rfl, profile_to_signal_lookup ⟨[7], [3], fun _ _ => some 42⟩ [Timestamp.mk 7 3] 0
    (Timestamp.mk 7 3) rfl⟩

lemma zip_map_self {α β : Type} (g : α → β) (l : List α) :
    l.zip (l.map g) = l.map fun a => (a, g a) := by
  induction l with
  | nil => rfl
  | cons a l ih => simp [ih]

/-- Claim C7: applying `profile_to_signal` and then `signal_to_profile`
reproduces the profile cell at every (hour, month) key that occurs in the
time axis and exists in the profile; since `profile_to_signal` broadcasts
one value per key, the pivot-table mean averages identical copies and the
round trip is exact (even when several timestamps share the key). -/
theorem profile_signal_roundtrip (p : Profile) (times : List Timestamp) (t : Timestamp)
    (ht : t ∈ times) (hh : t.hour ∈ p.hours) (hm : t.month ∈ p.months) :
    signal_to_profile times (profile_to_signal p times) t.hour t.month =
      p.cell t.hour t.month := by
  unfold signal_to_profile profile_to_signal
  rw [zip_map_self, List.filterMap_map]
  have hcomp : ((fun tv : Timestamp × Option ℚ =>
      if tv.1.hour = t.hour ∧ tv.1.month = t.month then tv.2 else none) ∘
      fun s => (s, profile_lookup p s)) =
      fun s => if s.hour = t.hour ∧ s.month = t.month then profile_lookup p s else none :=
    rfl
  rw [hcomp]
  cases hc : p.cell t.hour t.month with
  | none =>
      have hnil : times.filterMap (fun s =>
          if s.hour = t.hour ∧ s.month = t.month then profile_lookup p s else none) = [] := by
        rw [List.filterMap_eq_nil]
        intro s hs
        split_ifs with hcond
        · simp [profile_lookup_eq, hcond.1, hcond.2, hh, hm, hc]
        · rfl
      rw [hnil]
  | some v =>
      have hall : ∀ x ∈ times.filterMap (fun s =>
          if s.hour = t.hour ∧ s.month = t.month then profile_lookup p s else none),
          x = v := by
        intro x hx
        rcases List.mem_filterMap.mp hx with ⟨s, _, hsx⟩
        split_ifs at hsx with hcond
        simp only [profile_lookup_eq, hcond.1, hcond.2, hh, hm, and_self, if_true,
          hc, Option.some.injEq] at hsx
        exact hsx.symm
      have hmem : v ∈ times.filterMap (fun s =>
          if s.hour = t.hour ∧ s.month = t.month then profile_lookup p s else none) :=
        List.mem_filterMap.mpr ⟨t, ht, by
          simp [profile_lookup_eq, hh, hm, hc]⟩
      rcases hvs : times.filterMap (fun s =>
          if s.hour = t.hour ∧ s.month = t.month then profile_lookup p s else none) with
        _ | ⟨q, qs⟩
      · rw [hvs] at hmem
        exact absurd hmem (List.not_mem_nil v)
      · rw [hvs] at hall
        rw [hvs]
        show some ((q :: qs).sum / ((q :: qs).length : ℚ)) = some v
        have hrepl : q :: qs = List.replicate (q :: qs).length v :=
          List.eq_replicate.mpr ⟨rfl, hall⟩
        rw [hrepl, List.sum_replicate, List.length_replicate]
        have hlen : ((q :: qs).length : ℚ) ≠ 0 :=
          Nat.cast_ne_zero.mpr (Nat.succ_ne_zero _)
        rw [nsmul_eq_mul, mul_div_cancel_left₀ v hlen]

/-- Witness for C7 at a concrete profile and axis (the key (7, 3) is hit
by two timestamps, both receiving 42; the mean of the two copies is 42). -/
theorem profile_signal_roundtrip_witness :
    (Timestamp.mk 7 3 ∈ [Timestamp.mk 7 3, Timestamp.mk 7 3] ∧ (7:ℕ) ∈ [7] ∧ (3:ℕ) ∈ [3]) ∧
    signal_to_profile [Timestamp.mk 7 3, Timestamp.mk 7 3]
        (profile_to_signal ⟨[7], [3], fun _ _ => some 42⟩
          [Timestamp.mk 7 3, Timestamp.mk 7 3]) 7 3 =
      (⟨[7], [3], fun _ _ => some (42:ℚ)⟩ : Profile).cell 7 3 :=
  ⟨⟨by simp, by simp, by simp⟩,
   profile_signal_roundtrip ⟨[7], [3], fun _ _ => some 42⟩
     [Timestamp.mk 7 3, Timestamp.mk 7 3] (Timestamp.mk 7 3) (by simp) (by simp) (by simp)⟩
